import Mathlib

/-!
Verification development for the Auto-Encoder-Py repository.

The Python sources are shallowly embedded as executable Lean definitions:
  - `encoding_config.py`  : EncodingConfig / EncodingConfigManager methods
  - `resolution_handler.py`: VideoResolution / ResolutionHandler methods
  - `video_encoder.py`    : VideoFile, encode_single_file, encode_batch

Python floats are modelled as rationals, Python `int(x)` on a number as
truncation toward zero, Python dicts as insertion-ordered association
lists with overwrite-in-place update, and filesystem / subprocess
effects as explicit environment records passed to the embedded
functions.
-/

namespace AutoEncoder

/-- Whether the first character list is an initial segment of the second. -/
def charsStartWith : List Char → List Char → Bool
  | [], _ => true
  | _ :: _, [] => false
  | a :: as, b :: bs => a == b && charsStartWith as bs

/-- Whether the first character list occurs contiguously in the second. -/
def charsContain (sub : List Char) : List Char → Bool
  | [] => decide (sub = [])
  | b :: bs => charsStartWith sub (b :: bs) || charsContain sub bs

/-- Python `sub in s` substring containment, over the character data. -/
def pyIn (sub s : String) : Bool :=
  charsContain sub.data s.data

/-- Python truthiness of an optional string (`None` and `""` are falsy). -/
def pyTruthy : Option String → Bool
  | none => false
  | some s => !(s == "")

/-- Python `int()` applied to a number: truncation toward zero. -/
def pyInt (q : ℚ) : ℤ :=
  if 0 ≤ q then ⌊q⌋ else ⌈q⌉

/-- Membership test used for `Except.isOk`-style reasoning. -/
def exceptIsOk {ε α : Type} : Except ε α → Bool
  | .ok _ => true
  | .error _ => false

/-- One decimal digit, as Python `int()` reads it. -/
def pyDigit (c : Char) : Option ℕ :=
  if 48 ≤ c.toNat ∧ c.toNat ≤ 57 then some (c.toNat - 48) else none

/-- Accumulate the decimal digits of a Python int literal. -/
def pyParseDigits : List Char → ℕ → Option ℕ
  | [], acc => some acc
  | c :: t, acc =>
    match pyDigit c with
    | some d => pyParseDigits t (acc * 10 + d)
    | none => none

/-- Python `int()` applied to a string: an optional sign followed by
decimal digits, `None` standing for the raised `ValueError`. -/
def pyParseInt (s : String) : Option ℤ :=
  match s.data with
  | [] => none
  | ['-'] => none
  | '-' :: c :: t => (pyParseDigits (c :: t) 0).map (fun n => -(n : ℤ))
  | l => (pyParseDigits l 0).map (fun n => (n : ℤ))

/-! ## Python dict model

`video_params` in `generate_ffmpeg_params` is a Python dict built by
keyed assignment and `dict.update`; both overwrite an existing key in
place and append a fresh key at the end. -/

/-- Values stored in the parameter dict (Python mixes ints and strings). -/
inductive PValue
  | int (z : ℤ)
  | str (s : String)
deriving DecidableEq, Repr

/-- `d[k] = v` on a Python dict: overwrite the key in place (keys are
unique in a dict, so replacing the first occurrence), else append. -/
def dictSet : List (String × PValue) → String → PValue → List (String × PValue)
  | [], k, v => [(k, v)]
  | p :: t, k, v => if p.1 = k then (k, v) :: t else p :: dictSet t k v

/-- `d.update(e)` on Python dicts: keyed assignment of every entry of `e`. -/
def dictUpdate (d e : List (String × PValue)) : List (String × PValue) :=
  e.foldl (fun acc kv => dictSet acc kv.1 kv.2) d

/-- `d.get(k)` on a Python dict. -/
def dictGet : List (String × PValue) → String → Option PValue
  | [], _ => none
  | p :: t, k => if p.1 = k then some p.2 else dictGet t k

/-! ## encoding_config.py -/

/-- `EncodingMethod` enum. -/
inductive EncodingMethod
  | VBR
  | CRF
deriving DecidableEq, Repr

/-- `VideoCodec` enum. -/
inductive VideoCodec
  | H264
  | H265
deriving DecidableEq, Repr

/-- `EncodingConfig` dataclass. -/
structure EncodingConfig where
  method : EncodingMethod
  value : ℚ
  video_codec : String
  codec_type : VideoCodec
  hw_accel : Option String
  preset : String
  additional_params : List (String × PValue)
deriving DecidableEq, Repr

/-- `EncodingConfigManager.__init__`: default CRF-23 / libx265 configuration. -/
def defaultConfig : EncodingConfig :=
  { method := .CRF
    value := 23
    video_codec := "libx265"
    codec_type := .H265
    hw_accel := none
    preset := "medium"
    additional_params := [] }

/-- `EncodingConfigManager.set_crf_encoding`. -/
def set_crf_encoding (cfg : EncodingConfig) (crf_value : ℚ) (preset : String) :
    EncodingConfig :=
  let crf_value := max 0 (min 51 crf_value)
  { cfg with method := .CRF, value := crf_value, preset := preset }

/-- `EncodingConfigManager.set_vbr_encoding`. -/
def set_vbr_encoding (cfg : EncodingConfig) (bitrate_multiplier : ℚ)
    (preset : String) : EncodingConfig :=
  let bitrate_multiplier := max (1/10) (min 10 bitrate_multiplier)
  { cfg with method := .VBR, value := bitrate_multiplier, preset := preset }

/-- `EncodingConfigManager.set_hardware_acceleration`. -/
def set_hardware_acceleration (cfg : EncodingConfig) (hw_accel : Option String)
    (video_codec : String) : EncodingConfig :=
  { cfg with hw_accel := hw_accel, video_codec := video_codec }

/-- `EncodingConfigManager.set_codec_type`: vendor is recognized by
substring matching on the currently stored codec-id string. -/
def set_codec_type (cfg : EncodingConfig) (codec_type : VideoCodec)
    (hw_accel : Option String) : EncodingConfig :=
  let cfg := { cfg with codec_type := codec_type }
  if pyTruthy hw_accel then
    match codec_type with
    | .H264 =>
      if pyIn "nvenc" cfg.video_codec then { cfg with video_codec := "h264_nvenc" }
      else if pyIn "amf" cfg.video_codec then { cfg with video_codec := "h264_amf" }
      else if pyIn "qsv" cfg.video_codec then { cfg with video_codec := "h264_qsv" }
      else { cfg with video_codec := "libx264" }
    | .H265 =>
      if pyIn "nvenc" cfg.video_codec then { cfg with video_codec := "hevc_nvenc" }
      else if pyIn "amf" cfg.video_codec then { cfg with video_codec := "hevc_amf" }
      else if pyIn "qsv" cfg.video_codec then { cfg with video_codec := "hevc_qsv" }
      else { cfg with video_codec := "libx265" }
  else
    match codec_type with
    | .H264 => { cfg with video_codec := "libx264" }
    | .H265 => { cfg with video_codec := "libx265" }

/-- `EncodingConfigManager.calculate_target_bitrate`: parse the probed
bitrate string and truncate `original * multiplier` with Python `int()`. -/
def calculate_target_bitrate (cfg : EncodingConfig) (original_bitrate : String) :
    Except String ℤ :=
  if cfg.method ≠ .VBR then
    .error "Can only calculate target bitrate for VBR encoding"
  else
    match pyParseInt original_bitrate with
    | some n => .ok (pyInt ((n : ℚ) * cfg.value))
    | none => .error ("Invalid original bitrate: " ++ original_bitrate)

/-- `EncodingConfigManager._get_nvenc_optimizations`. -/
def get_nvenc_optimizations (cfg : EncodingConfig) : List (String × PValue) :=
  [("rc", .str (if cfg.method = .VBR then "vbr" else "cqp")),
   ("profile:v", .str "main"),
   ("level", .str "4.1"),
   ("b_ref_mode", .str "middle"),
   ("spatial_aq", .str "1"),
   ("temporal_aq", .str "1")]

/-- `EncodingConfigManager._get_amf_optimizations`. -/
def get_amf_optimizations (cfg : EncodingConfig) : List (String × PValue) :=
  [("profile:v", .str "main"),
   ("level", .str "4.1"),
   ("rc", .str (if cfg.method = .VBR then "vbr_peak" else "cqp")),
   ("quality", .str "balanced")]

/-- `EncodingConfigManager._get_qsv_optimizations`. -/
def get_qsv_optimizations (_cfg : EncodingConfig) : List (String × PValue) :=
  [("profile:v", .str "main"),
   ("level", .str "4.1"),
   ("look_ahead", .str "1"),
   ("look_ahead_depth", .str "40")]

/-- `EncodingConfigManager._get_x265_optimizations`. -/
def get_x265_optimizations (_cfg : EncodingConfig) : List (String × PValue) :=
  [("profile:v", .str "main"),
   ("level", .str "4.1"),
   ("x265-params", .str "aq-mode=3:aq-strength=0.8:deblock=1,1")]

/-- Result of `generate_ffmpeg_params`: `ffmpeg.input(...)` is modelled
by the input path it wraps. -/
structure FfmpegParams where
  input_config : String
  output_file : String
  video_params : List (String × PValue)
  global_args : List String
deriving DecidableEq, Repr

/-- `EncodingConfigManager.generate_ffmpeg_params`.  Raised `ValueError`s
are modelled as `Except.error` with the message. -/
def generate_ffmpeg_params (cfg : EncodingConfig) (input_file output_file : String)
    (original_bitrate : Option String) (scale_filter : Option String) :
    Except String FfmpegParams :=
  let input_config := input_file
  let global_args :=
    if pyTruthy cfg.hw_accel then ["-hwaccel", cfg.hw_accel.getD ""] else []
  let vp0 : List (String × PValue) := [("vcodec", .str cfg.video_codec)]
  let vp1 :=
    if !(pyIn "amf" cfg.video_codec) && !(pyIn "qsv" cfg.video_codec) then
      dictSet vp0 "preset" (.str cfg.preset)
    else vp0
  match (match cfg.method with
         | .CRF => Except.ok (dictSet vp1 "crf" (.int (pyInt cfg.value)))
         | .VBR =>
           if pyTruthy original_bitrate then
             match calculate_target_bitrate cfg (original_bitrate.getD "") with
             | .ok target => Except.ok (dictSet vp1 "b:v" (.str (toString target)))
             | .error e => Except.error e
           else
             Except.error "Original bitrate required for VBR encoding") with
  | Except.error e => Except.error e
  | Except.ok vp2 =>
    let filter_chain := match scale_filter with | some f => [f] | none => []
    let vp3 :=
      if filter_chain ≠ [] then
        dictSet vp2 "vf" (.str (String.intercalate "," filter_chain))
      else vp2
    let vp4 :=
      if pyIn "nvenc" cfg.video_codec then dictUpdate vp3 (get_nvenc_optimizations cfg)
      else if pyIn "amf" cfg.video_codec then dictUpdate vp3 (get_amf_optimizations cfg)
      else if pyIn "qsv" cfg.video_codec then dictUpdate vp3 (get_qsv_optimizations cfg)
      else if pyIn "x265" cfg.video_codec || pyIn "libx265" cfg.video_codec then
        dictUpdate vp3 (get_x265_optimizations cfg)
      else vp3
    let vp5 := dictUpdate vp4 cfg.additional_params
    Except.ok
      { input_config := input_config
        output_file := output_file
        video_params := vp5
        global_args := global_args }

/-- One method call `manager.generate_ffmpeg_params(...)` seen as a state
transformer on the manager's `self.config`: the method reads the
configuration and returns it untouched. -/
def generate_call (cfg : EncodingConfig) (input_file output_file : String)
    (original_bitrate : Option String) (scale_filter : Option String) :
    Except String FfmpegParams × EncodingConfig :=
  (generate_ffmpeg_params cfg input_file output_file original_bitrate scale_filter,
   cfg)

/-! ## resolution_handler.py -/

/-- `VideoResolution` dataclass (probed dimensions are nonnegative ints). -/
structure VideoResolution where
  width : ℕ
  height : ℕ
deriving DecidableEq, Repr

/-- `VideoResolution.longest_side`. -/
def VideoResolution.longest_side (r : VideoResolution) : ℕ :=
  max r.width r.height

/-- `ResolutionPreset` enum. -/
inductive ResolutionPreset
  | HD
  | FHD
  | QHD
  | UHD
deriving DecidableEq, Repr

/-- The `(width, height)` payload of each preset. -/
def ResolutionPreset.value : ResolutionPreset → ℕ × ℕ
  | .HD => (1280, 720)
  | .FHD => (1920, 1080)
  | .QHD => (2560, 1440)
  | .UHD => (3840, 2160)

/-- The mutable target fields of `ResolutionHandler`. -/
structure ResolutionHandler where
  target_width : ℕ
  target_height : ℕ
  target_longest_side : ℕ
deriving DecidableEq, Repr

/-- `ResolutionHandler.__init__` / `set_target_preset`. -/
def mkResolutionHandler (p : ResolutionPreset) : ResolutionHandler :=
  { target_width := p.value.1
    target_height := p.value.2
    target_longest_side := max p.value.1 p.value.2 }

/-- `ResolutionHandler.needs_resizing`. -/
def needs_resizing (h : ResolutionHandler) (current_resolution : VideoResolution) :
    Bool :=
  decide (current_resolution.longest_side > h.target_longest_side)

/-- `ResolutionHandler.calculate_target_resolution`: `int(w * scale)` on a
nonnegative float is the floor; `x - x % 2` forces even dimensions. -/
def calculate_target_resolution (h : ResolutionHandler)
    (current_resolution : VideoResolution) : VideoResolution :=
  if !(needs_resizing h current_resolution) then
    current_resolution
  else
    let scale_factor : ℚ :=
      (h.target_longest_side : ℚ) / (current_resolution.longest_side : ℚ)
    let new_width := ⌊(current_resolution.width : ℚ) * scale_factor⌋₊
    let new_height := ⌊(current_resolution.height : ℚ) * scale_factor⌋₊
    { width := new_width - new_width % 2, height := new_height - new_height % 2 }

/-- `ResolutionHandler.get_ffmpeg_scale_filter`. -/
def get_ffmpeg_scale_filter (h : ResolutionHandler)
    (current_resolution : VideoResolution) : Option String :=
  let target_resolution := calculate_target_resolution h current_resolution
  if current_resolution.width = target_resolution.width ∧
     current_resolution.height = target_resolution.height then
    none
  else
    some ("scale=" ++ toString target_resolution.width ++ ":" ++
          toString target_resolution.height)

/-! ## video_encoder.py -/

/-- The fields of `VideoFile` that the orchestration logic inspects. -/
structure VideoFileM where
  file_path : String
  size_mb : ℚ
  bitrate : Option String
  error : Option String
deriving DecidableEq, Repr

/-- `VideoFile.is_valid`. -/
def VideoFileM.is_valid (vf : VideoFileM) : Bool :=
  decide (vf.error = none ∧ vf.bitrate ≠ none)

/-- Bitrate selection inside `VideoFile._load_file_info`: the stream's
`bit_rate`, falling back to the container format's `bit_rate` when the
stream value is falsy and a format section is present. -/
def load_bitrate (stream_bit_rate : Option String) (format_present : Bool)
    (format_bit_rate : Option String) : Option String :=
  if !(pyTruthy stream_bit_rate) && format_present then format_bit_rate
  else stream_bit_rate

/-- `VideoFile.get_output_filename`: the stem/suffix path surgery is
abstracted to appending the marker to the input path. -/
def get_output_filename (vf : VideoFileM) : String :=
  vf.file_path ++ "_encoded"

/-- `VideoEncoder.SUPPORTED_EXTENSIONS`. -/
def SUPPORTED_EXTENSIONS : List String :=
  [".mp4", ".avi", ".mkv", ".mov", ".wmv", ".flv", ".webm", ".m4v"]

/-- One directory entry seen by `discover_video_files`, with the probe
outcome the `VideoFile` constructor produced for it. -/
structure DirEntry where
  path : String
  isFile : Bool
  suffixLower : String
  vf : VideoFileM
deriving DecidableEq, Repr

/-- `VideoEncoder.discover_video_files`: extension allow-list, exclusion
of already-processed names, and the `is_valid` probe filter. -/
def discover_video_files (entries : List DirEntry) : List VideoFileM :=
  (entries.filter (fun e =>
      e.isFile &&
      SUPPORTED_EXTENSIONS.contains e.suffixLower &&
      !(pyIn "_encoded." e.path) &&
      !(pyIn "_modified." e.path) &&
      e.vf.is_valid)).map (fun e => e.vf)

/-- Error taxonomy of a single encode job, tagging the distinct `raise`
sites of `encode_single_file` with the messages they carry. -/
inductive JobError
  | inputMissing (msg : String)
  | invalidVideoFile (msg : String)
  | probeError (msg : String)
  | configurationError (msg : String)
  | encodeFailure (msg : String)
  | timeoutError
  | outputValidationError (msg : String)
deriving DecidableEq, Repr

/-- State of the declared output path right after the encoder process
exits with code 0. -/
structure OutputState where
  outputExists : Bool
  sizeBytes : ℕ
  probeHasVideoStream : Bool
deriving DecidableEq, Repr

/-- Outcome of the external encoder invocation. -/
inductive RunOutcome
  | exitZero (out : OutputState)
  | ffmpegError (msg : String)
  | timedOut
deriving DecidableEq, Repr

instance {ε α : Type} [DecidableEq ε] [DecidableEq α] : DecidableEq (Except ε α) :=
  fun a b =>
  match a, b with
  | .ok x, .ok y => decidable_of_iff (x = y) (by simp)
  | .ok _, .error _ => .isFalse (by simp)
  | .error _, .ok _ => .isFalse (by simp)
  | .error e, .error f => decidable_of_iff (e = f) (by simp)

/-- Environment of one `encode_single_file` call: the filesystem and
subprocess facts the function observes. `partialOutputExists` is whether
the output path holds a (partial) file when the run did not finish with
exit code 0. -/
structure EncodeEnv where
  inputExists : Bool
  resolution_info : Except String (Option String)
  runResult : RunOutcome
  partialOutputExists : Bool
deriving DecidableEq, Repr

/-- `JobResult` dict produced per job (wall-clock fields omitted). -/
structure JobResult where
  success : Bool
  input_file : String
  output_file : String
  original_size_mb : ℚ
  encoded_size_mb : ℚ
  error : Option JobError
deriving DecidableEq, Repr

/-- The `try` body of `encode_single_file`, up to the output-validation
block.  On error it also reports whether the output path still holds a
file when the outer handler runs: the empty/invalid-output raises pass
through the inner `os.remove` cleanup first, and the missing-output
raise never had a file. -/
def encodeAttempt (cfg : EncodingConfig) (vf : VideoFileM) (output_path : String)
    (env : EncodeEnv) : Except (JobError × Bool) OutputState :=
  if !env.inputExists then
    .error (.inputMissing ("Input file does not exist: " ++ vf.file_path),
            env.partialOutputExists)
  else if vf.error.isSome then
    .error (.invalidVideoFile ("Invalid video file: " ++ vf.error.getD ""),
            env.partialOutputExists)
  else
    match env.resolution_info with
    | .error e => .error (.probeError e, env.partialOutputExists)
    | .ok scale_filter =>
      match generate_ffmpeg_params cfg vf.file_path output_path vf.bitrate
            scale_filter with
      | .error e =>
        .error (.configurationError ("Failed to generate FFmpeg parameters: " ++ e),
                env.partialOutputExists)
      | .ok _params =>
        match env.runResult with
        | .ffmpegError m =>
          .error (.encodeFailure ("FFmpeg error: " ++ m), env.partialOutputExists)
        | .timedOut =>
          .error (.timeoutError, env.partialOutputExists)
        | .exitZero out =>
          if !out.outputExists then
            .error (.outputValidationError "Output file was not created", false)
          else if out.sizeBytes = 0 then
            .error (.outputValidationError
                      "Output file validation failed: Output file is empty",
                    false)
          else if !out.probeHasVideoStream then
            .error (.outputValidationError
                      "Output file validation failed: Output file is not a valid video file",
                    false)
          else
            .ok out

/-- `VideoEncoder.encode_single_file`.  Returns the job result together
with whether the output file exists on disk once the call returns; the
outer handler removes the output path when it still exists. -/
def encode_single_file (cfg : EncodingConfig) (vf : VideoFileM) (env : EncodeEnv) :
    JobResult × Bool :=
  let output_path := get_output_filename vf
  match encodeAttempt cfg vf output_path env with
  | .ok out =>
    ({ success := true
       input_file := vf.file_path
       output_file := output_path
       original_size_mb := vf.size_mb
       encoded_size_mb := (out.sizeBytes : ℚ) / (1024 * 1024)
       error := none },
     out.outputExists)
  | .error (e, existsAtHandler) =>
    ({ success := false
       input_file := vf.file_path
       output_file := output_path
       original_size_mb := vf.size_mb
       encoded_size_mb := 0
       error := some e },
     if existsAtHandler then false else existsAtHandler)

/-- `processing_stats` dict of `VideoEncoder`. -/
structure BatchStats where
  total_files : ℕ
  processed_files : ℕ
  failed_files : ℕ
  total_original_size : ℚ
  total_encoded_size : ℚ
  failed_file_paths : List String
  cancelled : Bool
deriving DecidableEq, Repr

/-- One job handed to `encode_batch`: the discovered file plus the
environment its `encode_single_file` call will observe. -/
structure BatchJob where
  vf : VideoFileM
  env : EncodeEnv
deriving DecidableEq, Repr

/-- The per-iteration statistics update of the `encode_batch` loop. -/
def batchStep (cfg : EncodingConfig) (s : BatchStats) (j : BatchJob) : BatchStats :=
  let result := (encode_single_file cfg j.vf j.env).1
  if result.success then
    { s with processed_files := s.processed_files + 1
             total_encoded_size := s.total_encoded_size + result.encoded_size_mb }
  else
    { s with failed_files := s.failed_files + 1
             failed_file_paths := s.failed_file_paths ++ [j.vf.file_path] }

/-- The `encode_batch` loop: before each job the shared cancellation flag
is read; `cancel i` is the flag's state observed after `i` completed
jobs.  Returns the statistics plus the number of jobs attempted. -/
def runBatchAux (cfg : EncodingConfig) (cancel : ℕ → Bool) :
    List BatchJob → ℕ → BatchStats → BatchStats × ℕ
  | [], i, s => (s, i)
  | j :: rest, i, s =>
    if cancel i then (s, i)
    else runBatchAux cfg cancel rest (i + 1) (batchStep cfg s j)

/-- The statistics reset at the top of `encode_batch`. -/
def initStats (jobs : List BatchJob) : BatchStats :=
  { total_files := jobs.length
    processed_files := 0
    failed_files := 0
    total_original_size := (jobs.map (fun j => j.vf.size_mb)).sum
    total_encoded_size := 0
    failed_file_paths := []
    cancelled := false }

/-- `VideoEncoder.encode_batch`: run the loop, then (in the `finally`
block) mark the session cancelled when the flag is set. -/
def encode_batch (cfg : EncodingConfig) (jobs : List BatchJob)
    (cancel : ℕ → Bool) : BatchStats :=
  let r := runBatchAux cfg cancel jobs 0 (initStats jobs)
  if cancel r.2 then { r.1 with cancelled := true } else r.1

/-- The number of jobs `encode_batch` actually attempts. -/
def batchAttemptedCount (cfg : EncodingConfig) (jobs : List BatchJob)
    (cancel : ℕ → Bool) : ℕ :=
  (runBatchAux cfg cancel jobs 0 (initStats jobs)).2

/-- Every intermediate state of the `encode_batch` statistics, from the
reset value up to the final one. -/
def batchTrace (cfg : EncodingConfig) (cancel : ℕ → Bool) :
    List BatchJob → ℕ → BatchStats → List BatchStats
  | [], _, s => [s]
  | j :: rest, i, s =>
    if cancel i then [s]
    else s :: batchTrace cfg cancel rest (i + 1) (batchStep cfg s j)

/-- The statistics trace of a whole `encode_batch` call. -/
def encode_batch_trace (cfg : EncodingConfig) (jobs : List BatchJob)
    (cancel : ℕ → Bool) : List BatchStats :=
  batchTrace cfg cancel jobs 0 (initStats jobs)

/-! ## Hardware recommendation plumbing -/

/-- The fields of `HardwareDetector.get_recommended_encoder()` that
`_apply_hardware_recommendations` reads. -/
structure EncoderRecommendation where
  hw_accel : Option String
  video_codec : String
deriving DecidableEq, Repr

/-- `VideoEncoder._apply_hardware_recommendations`. -/
def apply_hardware_recommendations (cfg : EncodingConfig)
    (rec : EncoderRecommendation) : EncodingConfig :=
  if pyTruthy rec.hw_accel then
    let cfg := set_hardware_acceleration cfg rec.hw_accel rec.video_codec
    if pyIn "h264" rec.video_codec then set_codec_type cfg .H264 rec.hw_accel
    else set_codec_type cfg .H265 rec.hw_accel
  else cfg

/-- Hardware vendor variants, per the spec's design note. -/
inductive HwVendor
  | nvidia
  | amd
  | intel
deriving DecidableEq, Repr

/-- The vendor encoded in a codec-id string, as the `set_codec_type`
branch chain recognizes it. -/
def vendorOfCodecString (s : String) : Option HwVendor :=
  if pyIn "nvenc" s then some .nvidia
  else if pyIn "amf" s then some .amd
  else if pyIn "qsv" s then some .intel
  else none

/-- Modelled from the spec: the codec-id table obtained by crossing the
codec family with the hardware vendor (or none). -/
def crossCodecId : VideoCodec → Option HwVendor → String
  | .H264, some .nvidia => "h264_nvenc"
  | .H264, some .amd => "h264_amf"
  | .H264, some .intel => "h264_qsv"
  | .H264, none => "libx264"
  | .H265, some .nvidia => "hevc_nvenc"
  | .H265, some .amd => "hevc_amf"
  | .H265, some .intel => "hevc_qsv"
  | .H265, none => "libx265"

/-! ## Sample values used by the concrete witnesses -/

/-- A well-probed discovered file. -/
def sampleVideoFile : VideoFileM :=
  { file_path := "a.mp4", size_mb := 100, bitrate := some "5000000", error := none }

/-- An environment where everything succeeds. -/
def sampleEnvOk : EncodeEnv :=
  { inputExists := true
    resolution_info := .ok none
    runResult := .exitZero
      { outputExists := true, sizeBytes := 1000000, probeHasVideoStream := true }
    partialOutputExists := false }

/-- An environment where the encoder exits 0 but writes an empty file. -/
def sampleEnvEmptyOut : EncodeEnv :=
  { inputExists := true
    resolution_info := .ok none
    runResult := .exitZero
      { outputExists := true, sizeBytes := 0, probeHasVideoStream := true }
    partialOutputExists := false }

/-- A batch job that succeeds. -/
def sampleJob : BatchJob :=
  { vf := sampleVideoFile, env := sampleEnvOk }

/-- A directory entry that passes every discovery filter. -/
def sampleEntry : DirEntry :=
  { path := "a.mp4", isFile := true, suffixLower := ".mp4", vf := sampleVideoFile }

/-! ## Lemmas about the Python dict model -/

lemma dictGet_dictSet_self (d : List (String × PValue)) (k : String) (v : PValue) :
    dictGet (dictSet d k v) k = some v := by
  induction d with
  | nil => simp [dictSet, dictGet]
  | cons p t ih =>
    by_cases h : p.1 = k <;> simp [dictSet, dictGet, h, ih]

lemma dictGet_dictSet_ne (d : List (String × PValue)) (k k' : String) (v : PValue)
    (hne : k ≠ k') : dictGet (dictSet d k' v) k = dictGet d k := by
  induction d with
  | nil => simp [dictSet, dictGet, Ne.symm hne]
  | cons p t ih =>
    by_cases h : p.1 = k' <;> simp [dictSet, dictGet, h, Ne.symm hne, ih]

lemma dictGet_dictUpdate_of_not_key (e : List (String × PValue)) :
    ∀ d k, (∀ q ∈ e, q.1 ≠ k) → dictGet (dictUpdate d e) k = dictGet d k := by
  induction e with
  | nil => intro d k _; rfl
  | cons q t ih =>
    intro d k h
    have hq : q.1 ≠ k := h q (by simp)
    have hstep : dictUpdate d (q :: t) = dictUpdate (dictSet d q.1 q.2) t := rfl
    rw [hstep, ih (dictSet d q.1 q.2) k (fun p hp => h p (by simp [hp]))]
    exact dictGet_dictSet_ne d k q.1 q.2 (Ne.symm hq)

/-! ## Lemmas about the batch loop -/

lemma batchStep_count (cfg : EncodingConfig) (s : BatchStats) (j : BatchJob) :
    (batchStep cfg s j).processed_files + (batchStep cfg s j).failed_files =
      s.processed_files + s.failed_files + 1 := by
  unfold batchStep
  dsimp only
  split_ifs <;> simp <;> omega

lemma batchStep_total (cfg : EncodingConfig) (s : BatchStats) (j : BatchJob) :
    (batchStep cfg s j).total_files = s.total_files := by
  unfold batchStep
  dsimp only
  split_ifs <;> rfl

lemma runBatchAux_total (cfg : EncodingConfig) (cancel : ℕ → Bool) :
    ∀ jobs i s, ((runBatchAux cfg cancel jobs i s).1).total_files = s.total_files := by
  intro jobs
  induction jobs with
  | nil => intro i s; rfl
  | cons j rest ih =>
    intro i s
    by_cases hc : cancel i = true <;>
      simp [runBatchAux, hc, ih, batchStep_total]

lemma runBatchAux_idx_ge (cfg : EncodingConfig) (cancel : ℕ → Bool) :
    ∀ jobs i s, i ≤ (runBatchAux cfg cancel jobs i s).2 := by
  intro jobs
  induction jobs with
  | nil => intro i s; exact le_refl i
  | cons j rest ih =>
    intro i s
    by_cases hc : cancel i = true
    · simp [runBatchAux, hc]
    · simp only [runBatchAux, hc, if_false, Bool.false_eq_true]
      exact le_trans (Nat.le_succ i) (ih (i + 1) (batchStep cfg s j))

lemma runBatchAux_count (cfg : EncodingConfig) (cancel : ℕ → Bool) :
    ∀ jobs i s,
      ((runBatchAux cfg cancel jobs i s).1).processed_files +
        ((runBatchAux cfg cancel jobs i s).1).failed_files + i =
      s.processed_files + s.failed_files + (runBatchAux cfg cancel jobs i s).2 := by
  intro jobs
  induction jobs with
  | nil => intro i s; rfl
  | cons j rest ih =>
    intro i s
    by_cases hc : cancel i = true
    · simp [runBatchAux, hc]
    · simp only [runBatchAux, hc, if_false, Bool.false_eq_true]
      have h := ih (i + 1) (batchStep cfg s j)
      have hs := batchStep_count cfg s j
      omega

lemma runBatchAux_stop (cfg : EncodingConfig) (cancel : ℕ → Bool) :
    ∀ jobs i s k, (∀ m, m < k → cancel m = false) → cancel k = true →
      i ≤ k → k ≤ i + jobs.length →
      (runBatchAux cfg cancel jobs i s).2 = k := by
  intro jobs
  induction jobs with
  | nil =>
    intro i s k _ _ h3 h4
    simp only [List.length_nil, Nat.add_zero] at h4
    show i = k
    omega
  | cons j rest ih =>
    intro i s k h1 h2 h3 h4
    by_cases hc : cancel i = true
    · have hik : i = k := by
        by_contra hne
        have := h1 i (lt_of_le_of_ne h3 hne)
        rw [this] at hc
        exact absurd hc (by simp)
      subst hik
      simp [runBatchAux, hc]
    · have hik : i < k := by
        rcases lt_or_eq_of_le h3 with h | h
        · exact h
        · rw [h] at hc; exact absurd h2 hc
      have hlen : k ≤ i + 1 + rest.length := by
        simp only [List.length_cons] at h4
        omega
      simp only [runBatchAux, hc, if_false, Bool.false_eq_true]
      exact ih (i + 1) (batchStep cfg s j) k h1 h2 hik hlen

lemma runBatchAux_finish (cfg : EncodingConfig) (cancel : ℕ → Bool) :
    ∀ jobs i s, cancel (runBatchAux cfg cancel jobs i s).2 = false →
      (runBatchAux cfg cancel jobs i s).2 = i + jobs.length := by
  intro jobs
  induction jobs with
  | nil => intro i s _; simp [runBatchAux]
  | cons j rest ih =>
    intro i s hend
    by_cases hc : cancel i = true
    · exfalso
      rw [show (runBatchAux cfg cancel (j :: rest) i s).2 = i by
            simp [runBatchAux, hc]] at hend
      rw [hc] at hend
      exact absurd hend (by simp)
    · simp only [runBatchAux, hc, if_false, Bool.false_eq_true] at hend ⊢
      rw [ih (i + 1) (batchStep cfg s j) hend]
      simp [List.length_cons]
      omega

lemma batchTrace_invariant (cfg : EncodingConfig) (cancel : ℕ → Bool) :
    ∀ jobs i s,
      s.processed_files + s.failed_files + jobs.length ≤ s.total_files →
      ∀ t ∈ batchTrace cfg cancel jobs i s,
        t.processed_files + t.failed_files ≤ t.total_files := by
  intro jobs
  induction jobs with
  | nil =>
    intro i s hs t ht
    simp only [batchTrace, List.mem_singleton] at ht
    subst ht
    simpa using hs
  | cons j rest ih =>
    intro i s hs t ht
    have hlen : s.processed_files + s.failed_files + 1 + rest.length ≤
        s.total_files := by
      simp only [List.length_cons] at hs
      omega
    by_cases hc : cancel i = true
    · simp only [batchTrace, hc, if_true, List.mem_singleton] at ht
      subst ht
      omega
    · simp only [batchTrace, hc, if_false, Bool.false_eq_true,
        List.mem_cons] at ht
      rcases ht with rfl | ht
      · omega
      · refine ih (i + 1) (batchStep cfg s j) ?_ t ht
        rw [batchStep_total]
        have := batchStep_count cfg s j
        omega

/-! ## Claim theorems -/

/-- C4: `needs_resizing` is true exactly when the source long edge exceeds
the target long edge, and when it is false `calculate_target_resolution`
returns the source resolution unchanged and `get_ffmpeg_scale_filter`
emits no scale directive. -/
theorem needs_resize_iff_long_edge_and_identity (h : ResolutionHandler)
    (r : VideoResolution) :
    (needs_resizing h r = true ↔ max r.width r.height > h.target_longest_side) ∧
    (needs_resizing h r = false →
      calculate_target_resolution h r = r ∧ get_ffmpeg_scale_filter h r = none) := by
  constructor
  · simp [needs_resizing, VideoResolution.longest_side]
  · intro hnr
    have hc : calculate_target_resolution h r = r := by
      simp [calculate_target_resolution, hnr]
    refine ⟨hc, ?_⟩
    simp [get_ffmpeg_scale_filter, hc]

/-- C4 witness: a 720p source under an FHD target is left untouched. -/
theorem needs_resize_hd_witness :
    calculate_target_resolution (mkResolutionHandler .FHD) ⟨1280, 720⟩ = ⟨1280, 720⟩ ∧
    get_ffmpeg_scale_filter (mkResolutionHandler .FHD) ⟨1280, 720⟩ = none :=
  (needs_resize_iff_long_edge_and_identity (mkResolutionHandler .FHD)
    ⟨1280, 720⟩).2 (by decide)

/-- C5 counterexample: with stored multiplier 0.6 and source bitrate 3,
`calculate_target_bitrate` returns `int(1.8) = 1`, while the claimed
`round(source_bitrate * multiplier)` is 2 — the code truncates, it does
not round. -/
theorem bitrate_truncates_not_rounds_cx :
    calculate_target_bitrate (set_vbr_encoding defaultConfig (6/10) "medium") "3" =
      .ok 1 ∧
    (set_vbr_encoding defaultConfig (6/10) "medium").value = 6/10 ∧
    round ((3 : ℚ) * (6/10)) = 2 := by
  have hv : (set_vbr_encoding defaultConfig (6/10) "medium").value = 6/10 := by
    simp only [set_vbr_encoding]
    norm_num
  refine ⟨?_, hv, ?_⟩
  · simp only [calculate_target_bitrate, hv,
      show (set_vbr_encoding defaultConfig (6/10) "medium").method = .VBR from rfl,
      show pyParseInt "3" = some 3 from rfl]
    norm_num [pyInt, Int.floor_eq_iff]
  · norm_num [round_eq, Int.floor_eq_iff]

/-- C5 (amended): `set_vbr_encoding` stores the multiplier clamped to
[0.1, 10.0], and `calculate_target_bitrate` returns the product
`source_bitrate * stored_multiplier` truncated toward zero by Python
`int()` (the floor for nonnegative products), not rounded. -/
theorem vbr_multiplier_clamped_and_truncated (cfg : EncodingConfig) (m : ℚ)
    (preset ob : String) (n : ℤ) (hob : pyParseInt ob = some n) :
    (set_vbr_encoding cfg m preset).value = max (1/10) (min 10 m) ∧
    calculate_target_bitrate (set_vbr_encoding cfg m preset) ob =
      .ok (pyInt ((n : ℚ) * max (1/10) (min 10 m))) := by
  refine ⟨rfl, ?_⟩
  simp [calculate_target_bitrate, set_vbr_encoding, hob]

/-- C5 witness: multiplier 0.6 on source bitrate "3" yields the truncated
product. -/
theorem vbr_multiplier_witness :
    pyParseInt "3" = some 3 ∧
    calculate_target_bitrate (set_vbr_encoding defaultConfig (6/10) "medium") "3" =
      .ok (pyInt ((3 : ℚ) * max (1/10) (min 10 (6/10)))) :=
  ⟨rfl,
   (vbr_multiplier_clamped_and_truncated defaultConfig (6/10) "medium" "3" 3 rfl).2⟩

/-- C6: the codec id stored by `set_codec_type` is the cross of the codec
family with the hardware vendor recognized in the stored codec string
(or none), and whenever the hardware-acceleration argument is falsy the
result is the software encoder for the family; a capability report with
no hardware recommendation leaves the configuration untouched. -/
theorem codec_id_crossing_and_software_default (cfg : EncodingConfig)
    (ct : VideoCodec) (hw : Option String) :
    ((set_codec_type cfg ct hw).video_codec =
      crossCodecId ct
        (if pyTruthy hw then vendorOfCodecString cfg.video_codec else none)) ∧
    (pyTruthy hw = false →
      (set_codec_type cfg ct hw).video_codec = crossCodecId ct none) ∧
    (∀ rec : EncoderRecommendation, pyTruthy rec.hw_accel = false →
      apply_hardware_recommendations cfg rec = cfg) := by
  refine ⟨?_, ?_, ?_⟩
  · cases hhw : pyTruthy hw <;> cases ct <;>
      simp only [set_codec_type, vendorOfCodecString, crossCodecId, hhw,
        if_true, if_false, Bool.false_eq_true, Bool.true_eq_false] <;>
      split_ifs <;> rfl
  · intro hhw
    cases ct <;> simp [set_codec_type, crossCodecId, hhw]
  · intro rec hrec
    simp [apply_hardware_recommendations, hrec]

/-- C6 witness: with hardware acceleration unset, H.264 selects the
software encoder. -/
theorem codec_id_crossing_witness :
    (set_codec_type defaultConfig .H264 none).video_codec = crossCodecId .H264 none :=
  (codec_id_crossing_and_software_default defaultConfig .H264 none).2.1 rfl

/-- C9: a `generate_ffmpeg_params` call leaves the configuration state
unchanged, and a second call from the returned state produces the very
same result (identical `video_params` and `global_args` bags):
parameter building is deterministic with no hidden mutable state. -/
theorem generate_params_deterministic (cfg : EncodingConfig)
    (input_file output_file : String) (ob sf : Option String) :
    (generate_call cfg input_file output_file ob sf).2 = cfg ∧
    (generate_call ((generate_call cfg input_file output_file ob sf).2)
        input_file output_file ob sf).1 =
      (generate_call cfg input_file output_file ob sf).1 :=
  ⟨rfl, rfl⟩

/-- C10: `is_valid` holds exactly when the probe recorded no error and a
bitrate value; every file delivered by `discover_video_files` therefore
has a known bitrate (the discovery filter never consults the configured
encoding method). -/
theorem is_valid_requires_bitrate_and_discovery_excludes
    (vf : VideoFileM) (entries : List DirEntry) :
    (vf.is_valid = true ↔ (vf.error = none ∧ vf.bitrate ≠ none)) ∧
    (∀ v ∈ discover_video_files entries, v.bitrate ≠ none) := by
  constructor
  · simp [VideoFileM.is_valid]
  · intro v hv
    simp only [discover_video_files, List.mem_map, List.mem_filter] at hv
    obtain ⟨e, ⟨_, hcond⟩, rfl⟩ := hv
    simp only [Bool.and_eq_true, VideoFileM.is_valid, decide_eq_true_eq] at hcond
    exact hcond.2.2

/-- C10 witness: a discovered sample file indeed carries a bitrate. -/
theorem discovery_excludes_witness :
    sampleVideoFile.bitrate ≠ none :=
  (is_valid_requires_bitrate_and_discovery_excludes sampleVideoFile
    [sampleEntry]).2 sampleVideoFile
    (by rw [show discover_video_files [sampleEntry] = [sampleVideoFile] from rfl]
        exact List.mem_singleton.mpr rfl)

lemma dictUpdate_nil (d : List (String × PValue)) : dictUpdate d [] = d := rfl

lemma nvenc_keys_ne_crf (cfg : EncodingConfig) :
    ∀ q ∈ get_nvenc_optimizations cfg, q.1 ≠ "crf" := by
  intro q hq
  simp only [get_nvenc_optimizations, List.mem_cons, List.not_mem_nil,
    or_false] at hq
  rcases hq with rfl | rfl | rfl | rfl | rfl | rfl <;> simp

lemma amf_keys_ne_crf (cfg : EncodingConfig) :
    ∀ q ∈ get_amf_optimizations cfg, q.1 ≠ "crf" := by
  intro q hq
  simp only [get_amf_optimizations, List.mem_cons, List.not_mem_nil,
    or_false] at hq
  rcases hq with rfl | rfl | rfl | rfl <;> simp

lemma qsv_keys_ne_crf (cfg : EncodingConfig) :
    ∀ q ∈ get_qsv_optimizations cfg, q.1 ≠ "crf" := by
  intro q hq
  simp only [get_qsv_optimizations, List.mem_cons, List.not_mem_nil,
    or_false] at hq
  rcases hq with rfl | rfl | rfl | rfl <;> simp

lemma x265_keys_ne_crf (cfg : EncodingConfig) :
    ∀ q ∈ get_x265_optimizations cfg, q.1 ≠ "crf" := by
  intro q hq
  simp only [get_x265_optimizations, List.mem_cons, List.not_mem_nil,
    or_false] at hq
  rcases hq with rfl | rfl | rfl <;> simp

/-- The codec-specific tuning bundles never touch the rate-control key. -/
lemma tuning_preserves_crf (cfg : EncodingConfig) (d : List (String × PValue)) :
    dictGet
      (if pyIn "nvenc" cfg.video_codec then
        dictUpdate d (get_nvenc_optimizations cfg)
      else if pyIn "amf" cfg.video_codec then
        dictUpdate d (get_amf_optimizations cfg)
      else if pyIn "qsv" cfg.video_codec then
        dictUpdate d (get_qsv_optimizations cfg)
      else if pyIn "x265" cfg.video_codec || pyIn "libx265" cfg.video_codec then
        dictUpdate d (get_x265_optimizations cfg)
      else d) "crf" = dictGet d "crf" := by
  split_ifs
  · exact dictGet_dictUpdate_of_not_key _ d "crf" (nvenc_keys_ne_crf cfg)
  · exact dictGet_dictUpdate_of_not_key _ d "crf" (amf_keys_ne_crf cfg)
  · exact dictGet_dictUpdate_of_not_key _ d "crf" (qsv_keys_ne_crf cfg)
  · exact dictGet_dictUpdate_of_not_key _ d "crf" (x265_keys_ne_crf cfg)
  · rfl

/-- C7: quality values are clamped to [0, 51] once, at configuration
time (1000 stores 51 and −5 stores 0), and on a CRF configuration the
built parameter bag carries exactly the Python `int()` of the stored
value — no further clamping happens at build time. -/
theorem crf_clamped_once_no_build_clamp (cfg cfg2 : EncodingConfig) (v : ℚ)
    (preset input_file output_file : String) (ob : Option String)
    (sf : Option String)
    (hm : cfg2.method = .CRF) (hap : cfg2.additional_params = []) :
    (set_crf_encoding cfg v preset).value = max 0 (min 51 v) ∧
    (set_crf_encoding cfg 1000 preset).value = 51 ∧
    (set_crf_encoding cfg (-5) preset).value = 0 ∧
    (∃ p, generate_ffmpeg_params cfg2 input_file output_file ob sf = .ok p ∧
       dictGet p.video_params "crf" = some (.int (pyInt cfg2.value))) := by
  refine ⟨rfl, ?_, ?_, ?_⟩
  · simp only [set_crf_encoding]
    norm_num
  · simp only [set_crf_encoding]
    norm_num
  · cases sf with
    | none =>
      simp only [generate_ffmpeg_params, hm, hap, dictUpdate_nil]
      refine ⟨_, rfl, ?_⟩
      simp only [ne_eq, not_true_eq_false, if_false]
      rw [tuning_preserves_crf]
      exact dictGet_dictSet_self _ _ _
    | some f =>
      simp only [generate_ffmpeg_params, hm, hap, dictUpdate_nil]
      refine ⟨_, rfl, ?_⟩
      simp only [ne_eq, List.cons_ne_self, not_false_eq_true, if_true]
      rw [tuning_preserves_crf]
      rw [dictGet_dictSet_ne _ _ _ _ (by decide)]
      exact dictGet_dictSet_self _ _ _

/-- C7 witness: the two clamp examples and the lookup on the default CRF
configuration. -/
theorem crf_clamp_witness :
    (set_crf_encoding defaultConfig 1000 "medium").value = 51 ∧
    (set_crf_encoding defaultConfig (-5) "medium").value = 0 ∧
    (∃ p, generate_ffmpeg_params defaultConfig "a.mp4" "b.mp4" none none = .ok p ∧
       dictGet p.video_params "crf" = some (.int (pyInt defaultConfig.value))) :=
  ⟨(crf_clamped_once_no_build_clamp defaultConfig defaultConfig 7 "medium"
      "a.mp4" "b.mp4" none none rfl rfl).2.1,
   (crf_clamped_once_no_build_clamp defaultConfig defaultConfig 7 "medium"
      "a.mp4" "b.mp4" none none rfl rfl).2.2.1,
   (crf_clamped_once_no_build_clamp defaultConfig defaultConfig 7 "medium"
      "a.mp4" "b.mp4" none none rfl rfl).2.2.2⟩

/-- C3: above the target long edge, the new dimensions are the floors of
`width * scale` and `height * scale` with `scale = L / max(w, h)`, each
decremented by 1 when odd; both results are even, the target long edge
is `L` rounded down to even, and each dimension is within rounding
distance 2 of the exactly-scaled value (so the aspect ratio is preserved
up to this even-rounding). -/
theorem target_resolution_even_dims_and_bounds (hh : ResolutionHandler)
    (r : VideoResolution) (L M : ℕ) (s : ℚ) (fw fh : ℕ)
    (hL : L = hh.target_longest_side) (hM : M = r.longest_side)
    (hs : s = (L : ℚ) / (M : ℚ))
    (hfw : fw = ⌊(r.width : ℚ) * s⌋₊) (hfh : fh = ⌊(r.height : ℚ) * s⌋₊)
    (hgt : L < M) :
    calculate_target_resolution hh r =
      { width := fw - fw % 2, height := fh - fh % 2 } ∧
    (fw - fw % 2 = if fw % 2 = 1 then fw - 1 else fw) ∧
    (fh - fh % 2 = if fh % 2 = 1 then fh - 1 else fh) ∧
    (calculate_target_resolution hh r).width % 2 = 0 ∧
    (calculate_target_resolution hh r).height % 2 = 0 ∧
    (calculate_target_resolution hh r).longest_side = L - L % 2 ∧
    ((calculate_target_resolution hh r).width : ℚ) ≤ (r.width : ℚ) * s ∧
    ((r.width : ℚ) * s - 2 < ((calculate_target_resolution hh r).width : ℚ)) ∧
    ((calculate_target_resolution hh r).height : ℚ) ≤ (r.height : ℚ) * s ∧
    ((r.height : ℚ) * s - 2 < ((calculate_target_resolution hh r).height : ℚ)) := by
  subst hL
  subst hM
  have hM0 : 0 < r.longest_side := Nat.lt_of_le_of_lt (Nat.zero_le _) hgt
  have hMne : (r.longest_side : ℚ) ≠ 0 := by
    exact_mod_cast hM0.ne'
  have hsnn : 0 ≤ s := by
    rw [hs]
    exact div_nonneg (Nat.cast_nonneg _) (Nat.cast_nonneg _)
  have hneed : needs_resizing hh r = true := by
    simp only [needs_resizing, gt_iff_lt, decide_eq_true_eq]
    exact hgt
  have hcalc : calculate_target_resolution hh r =
      { width := fw - fw % 2, height := fh - fh % 2 } := by
    simp only [calculate_target_resolution, hneed, Bool.not_true,
      Bool.false_eq_true, if_false]
    rw [← hs, ← hfw, ← hfh]
  refine ⟨hcalc, ?_, ?_, ?_, ?_, ?_, ?_, ?_, ?_, ?_⟩
  · rcases Nat.mod_two_eq_zero_or_one fw with h | h <;> simp [h]
  · rcases Nat.mod_two_eq_zero_or_one fh with h | h <;> simp [h]
  · rw [hcalc]
    show (fw - fw % 2) % 2 = 0
    omega
  · rw [hcalc]
    show (fh - fh % 2) % 2 = 0
    omega
  · rw [hcalc]
    show max (fw - fw % 2) (fh - fh % 2) =
      hh.target_longest_side - hh.target_longest_side % 2
    rcases le_total r.width r.height with hwh | hwh
    · have hls : r.longest_side = r.height := max_eq_right hwh
      have hfh_eq : fh = hh.target_longest_side := by
        rw [hfh, hs, hls, mul_comm, div_mul_cancel₀]
        · exact Nat.floor_natCast _
        · rw [← hls]; exact hMne
      have hmono : fw ≤ fh := by
        rw [hfw, hfh]
        exact Nat.floor_mono
          (mul_le_mul_of_nonneg_right (by exact_mod_cast hwh) hsnn)
      rw [hfh_eq] at hmono ⊢
      have h1 : fw - fw % 2 ≤
          hh.target_longest_side - hh.target_longest_side % 2 := by omega
      exact max_eq_right h1
    · have hls : r.longest_side = r.width := max_eq_left hwh
      have hfw_eq : fw = hh.target_longest_side := by
        rw [hfw, hs, hls, mul_comm, div_mul_cancel₀]
        · exact Nat.floor_natCast _
        · rw [← hls]; exact hMne
      have hmono : fh ≤ fw := by
        rw [hfw, hfh]
        exact Nat.floor_mono
          (mul_le_mul_of_nonneg_right (by exact_mod_cast hwh) hsnn)
      rw [hfw_eq] at hmono ⊢
      have h1 : fh - fh % 2 ≤
          hh.target_longest_side - hh.target_longest_side % 2 := by omega
      exact max_eq_left h1
  · rw [hcalc]
    show ((fw - fw % 2 : ℕ) : ℚ) ≤ (r.width : ℚ) * s
    have hub : ((fw : ℕ) : ℚ) ≤ (r.width : ℚ) * s := by
      rw [hfw]
      exact Nat.floor_le (mul_nonneg (Nat.cast_nonneg _) hsnn)
    have hcast : ((fw - fw % 2 : ℕ) : ℚ) ≤ ((fw : ℕ) : ℚ) := by
      exact_mod_cast Nat.sub_le fw (fw % 2)
    linarith
  · rw [hcalc]
    show (r.width : ℚ) * s - 2 < ((fw - fw % 2 : ℕ) : ℚ)
    have hlb : (r.width : ℚ) * s < fw + 1 := by
      rw [hfw]
      exact Nat.lt_floor_add_one _
    have h2 : ((fw : ℕ) : ℚ) ≤ ((fw - fw % 2 : ℕ) : ℚ) + 1 := by
      have h3 : fw ≤ (fw - fw % 2) + 1 := by omega
      exact_mod_cast h3
    linarith
  · rw [hcalc]
    show ((fh - fh % 2 : ℕ) : ℚ) ≤ (r.height : ℚ) * s
    have hub : ((fh : ℕ) : ℚ) ≤ (r.height : ℚ) * s := by
      rw [hfh]
      exact Nat.floor_le (mul_nonneg (Nat.cast_nonneg _) hsnn)
    have hcast : ((fh - fh % 2 : ℕ) : ℚ) ≤ ((fh : ℕ) : ℚ) := by
      exact_mod_cast Nat.sub_le fh (fh % 2)
    linarith
  · rw [hcalc]
    show (r.height : ℚ) * s - 2 < ((fh - fh % 2 : ℕ) : ℚ)
    have hlb : (r.height : ℚ) * s < fh + 1 := by
      rw [hfh]
      exact Nat.lt_floor_add_one _
    have h2 : ((fh : ℕ) : ℚ) ≤ ((fh - fh % 2 : ℕ) : ℚ) + 1 := by
      have h3 : fh ≤ (fh - fh % 2) + 1 := by omega
      exact_mod_cast h3
    linarith

/-- C3 witness: a 3840x2160 source against an FHD target. -/
theorem target_resolution_witness :
    (calculate_target_resolution (mkResolutionHandler .FHD)
      ⟨3840, 2160⟩).width % 2 = 0 ∧
    (calculate_target_resolution (mkResolutionHandler .FHD)
      ⟨3840, 2160⟩).longest_side = 1920 - 1920 % 2 := by
  have h := target_resolution_even_dims_and_bounds (mkResolutionHandler .FHD)
    ⟨3840, 2160⟩ 1920 3840 (1/2) 1920 1080 (by decide) (by decide)
    (by norm_num) (by norm_num [Nat.floor_eq_iff])
    (by norm_num [Nat.floor_eq_iff]) (by decide)
  exact ⟨h.2.2.2.1, h.2.2.2.2.2.1⟩

/-- C2: if the cancellation flag first turns true after job k completes
and before job k+1 starts, the batch stops with
processed + failed = k, reports cancelled = true, and attempts exactly k
jobs; moreover every intermediate statistics state satisfies
processed + failed ≤ total, with equality at batch end unless the batch
was cancelled. -/
theorem batch_cancellation_and_counts_invariant (cfg : EncodingConfig)
    (jobs : List BatchJob) (cancel : ℕ → Bool) (k : ℕ) :
    ((∀ i, i < k → cancel i = false) → cancel k = true → k ≤ jobs.length →
      (encode_batch cfg jobs cancel).processed_files +
        (encode_batch cfg jobs cancel).failed_files = k ∧
      (encode_batch cfg jobs cancel).cancelled = true ∧
      batchAttemptedCount cfg jobs cancel = k) ∧
    (∀ s ∈ encode_batch_trace cfg jobs cancel,
      s.processed_files + s.failed_files ≤ s.total_files) ∧
    ((encode_batch cfg jobs cancel).cancelled = false →
      (encode_batch cfg jobs cancel).processed_files +
        (encode_batch cfg jobs cancel).failed_files =
        (encode_batch cfg jobs cancel).total_files) := by
  refine ⟨?_, ?_, ?_⟩
  · intro h1 h2 h3
    have hstop : (runBatchAux cfg cancel jobs 0 (initStats jobs)).2 = k :=
      runBatchAux_stop cfg cancel jobs 0 (initStats jobs) k h1 h2
        (Nat.zero_le k) (by omega)
    have hcount := runBatchAux_count cfg cancel jobs 0 (initStats jobs)
    have hcc : cancel (runBatchAux cfg cancel jobs 0 (initStats jobs)).2 = true := by
      rw [hstop]; exact h2
    have hbatch : encode_batch cfg jobs cancel =
        { (runBatchAux cfg cancel jobs 0 (initStats jobs)).1 with cancelled := true } := by
      simp only [encode_batch, hcc, if_true]
    have hinit : (initStats jobs).processed_files = 0 ∧
        (initStats jobs).failed_files = 0 := ⟨rfl, rfl⟩
    refine ⟨?_, ?_, ?_⟩
    · rw [hbatch]
      simp only []
      omega
    · rw [hbatch]
    · unfold batchAttemptedCount
      exact hstop
  · intro s hs
    refine batchTrace_invariant cfg cancel jobs 0 (initStats jobs) ?_ s hs
    simp [initStats]
  · intro hc
    by_cases hcc : cancel (runBatchAux cfg cancel jobs 0 (initStats jobs)).2 = true
    · exfalso
      simp only [encode_batch, hcc, if_true] at hc
      exact absurd hc (by simp)
    · have hcf : cancel (runBatchAux cfg cancel jobs 0 (initStats jobs)).2 = false := by
        simpa using hcc
      have hfin := runBatchAux_finish cfg cancel jobs 0 (initStats jobs) hcf
      have hcount := runBatchAux_count cfg cancel jobs 0 (initStats jobs)
      have htot := runBatchAux_total cfg cancel jobs 0 (initStats jobs)
      have hinit : (initStats jobs).processed_files = 0 ∧
          (initStats jobs).failed_files = 0 ∧
          (initStats jobs).total_files = jobs.length := ⟨rfl, rfl, rfl⟩
      simp only [encode_batch, hcc, Bool.false_eq_true, if_false]
      omega

/-- C2 witness: a two-job batch whose flag turns true after the first
job stops with one counted job and the cancelled mark. -/
theorem batch_cancellation_witness :
    (encode_batch defaultConfig [sampleJob, sampleJob]
        (fun i => decide (1 ≤ i))).processed_files +
      (encode_batch defaultConfig [sampleJob, sampleJob]
        (fun i => decide (1 ≤ i))).failed_files = 1 ∧
    (encode_batch defaultConfig [sampleJob, sampleJob]
        (fun i => decide (1 ≤ i))).cancelled = true ∧
    batchAttemptedCount defaultConfig [sampleJob, sampleJob]
      (fun i => decide (1 ≤ i)) = 1 :=
  (batch_cancellation_and_counts_invariant defaultConfig [sampleJob, sampleJob]
    (fun i => decide (1 ≤ i)) 1).1 (by decide) (by decide) (by decide)

/-- C8: building parameters in VBR mode with an absent (falsy) source
bitrate fails with the bitrate-required configuration error rather than
defaulting; inside `encode_single_file` this surfaces as a failed job
result carrying a `configurationError`, and a batch never loses jobs —
with no cancellation every job is still counted as processed or failed. -/
theorem vbr_missing_bitrate_configuration_error (cfg : EncodingConfig)
    (input_file output_file : String) (ob sf : Option String)
    (vf : VideoFileM) (env : EncodeEnv)
    (hm : cfg.method = .VBR) (hob : pyTruthy ob = false) :
    generate_ffmpeg_params cfg input_file output_file ob sf =
      .error "Original bitrate required for VBR encoding" ∧
    (vf.bitrate = ob → vf.error = none → env.inputExists = true →
      env.resolution_info = .ok sf →
      (encode_single_file cfg vf env).1.success = false ∧
      (encode_single_file cfg vf env).1.error =
        some (.configurationError
          ("Failed to generate FFmpeg parameters: " ++
           "Original bitrate required for VBR encoding"))) ∧
    (∀ jobs : List BatchJob, ∀ cancel : ℕ → Bool, (∀ i, cancel i = false) →
      (encode_batch cfg jobs cancel).processed_files +
        (encode_batch cfg jobs cancel).failed_files =
        (encode_batch cfg jobs cancel).total_files) := by
  have hgen : ∀ a b : String, generate_ffmpeg_params cfg a b ob sf =
      .error "Original bitrate required for VBR encoding" := by
    intro a b
    simp [generate_ffmpeg_params, hm, hob]
  refine ⟨hgen input_file output_file, ?_, ?_⟩
  · intro h1 h2 h3 h4
    simp [encode_single_file, encodeAttempt, h1, h2, h3, h4, hgen]
  · intro jobs cancel hcancel
    have hcf : cancel (runBatchAux cfg cancel jobs 0 (initStats jobs)).2 = false :=
      hcancel _
    have hcc : ¬cancel (runBatchAux cfg cancel jobs 0 (initStats jobs)).2 = true := by
      simp [hcf]
    have hfin := runBatchAux_finish cfg cancel jobs 0 (initStats jobs) hcf
    have hcount := runBatchAux_count cfg cancel jobs 0 (initStats jobs)
    have htot := runBatchAux_total cfg cancel jobs 0 (initStats jobs)
    have hinit : (initStats jobs).processed_files = 0 ∧
        (initStats jobs).failed_files = 0 ∧
        (initStats jobs).total_files = jobs.length := ⟨rfl, rfl, rfl⟩
    simp only [encode_batch, hcc, Bool.false_eq_true, if_false]
    omega

/-- C8 witness: a VBR configuration and a discovered file with no
bitrate produce a per-job configuration failure. -/
theorem vbr_missing_bitrate_witness :
    (encode_single_file
        { defaultConfig with method := .VBR }
        { sampleVideoFile with bitrate := none }
        sampleEnvOk).1.success = false ∧
    (encode_single_file
        { defaultConfig with method := .VBR }
        { sampleVideoFile with bitrate := none }
        sampleEnvOk).1.error =
      some (.configurationError
        ("Failed to generate FFmpeg parameters: " ++
         "Original bitrate required for VBR encoding")) :=
  (vbr_missing_bitrate_configuration_error
    { defaultConfig with method := .VBR } "a.mp4" "b.mp4" none none
    { sampleVideoFile with bitrate := none } sampleEnvOk rfl rfl).2.1
    rfl rfl rfl rfl

/-- C1: whenever the encoder run exits 0 but the output file is missing,
empty, or re-probes without a video stream, `encode_single_file` returns
a failed result tagged as an output-validation error and the output file
does not exist on disk when the call returns. -/
theorem encode_exit0_invalid_output_fails_and_cleans (cfg : EncodingConfig)
    (vf : VideoFileM) (env : EncodeEnv) (out : OutputState) (sf : Option String)
    (hrun : env.runResult = .exitZero out)
    (hbad : out.outputExists = false ∨ out.sizeBytes = 0 ∨
            out.probeHasVideoStream = false)
    (hin : env.inputExists = true) (herr : vf.error = none)
    (hres : env.resolution_info = .ok sf)
    (hgen : exceptIsOk (generate_ffmpeg_params cfg vf.file_path
              (get_output_filename vf) vf.bitrate sf) = true) :
    (encode_single_file cfg vf env).1.success = false ∧
    (∃ msg, (encode_single_file cfg vf env).1.error =
      some (.outputValidationError msg)) ∧
    (encode_single_file cfg vf env).2 = false := by
  cases hg : generate_ffmpeg_params cfg vf.file_path (get_output_filename vf)
      vf.bitrate sf with
  | error e =>
    rw [hg] at hgen
    simp [exceptIsOk] at hgen
  | ok p =>
    rcases hbad with h | h | h
    · simp [encode_single_file, encodeAttempt, hin, herr, hres, hg, hrun, h]
    · by_cases hoe : out.outputExists = true
      · simp [encode_single_file, encodeAttempt, hin, herr, hres, hg, hrun, h, hoe]
      · simp [encode_single_file, encodeAttempt, hin, herr, hres, hg, hrun, hoe]
    · by_cases hoe : out.outputExists = true
      · by_cases hsz : out.sizeBytes = 0
        · simp [encode_single_file, encodeAttempt, hin, herr, hres, hg, hrun,
            hoe, hsz]
        · simp [encode_single_file, encodeAttempt, hin, herr, hres, hg, hrun,
            hoe, hsz, h]
      · simp [encode_single_file, encodeAttempt, hin, herr, hres, hg, hrun, hoe]

/-- C1 witness: exit code 0 with an empty output file yields a failed,
output-validation-tagged result and no output file on disk. -/
theorem encode_exit0_empty_output_witness :
    (encode_single_file defaultConfig sampleVideoFile sampleEnvEmptyOut).1.success
      = false ∧
    (∃ msg, (encode_single_file defaultConfig sampleVideoFile
        sampleEnvEmptyOut).1.error = some (.outputValidationError msg)) ∧
    (encode_single_file defaultConfig sampleVideoFile sampleEnvEmptyOut).2 = false :=
  encode_exit0_invalid_output_fails_and_cleans defaultConfig sampleVideoFile
    sampleEnvEmptyOut
    { outputExists := true, sizeBytes := 0, probeHasVideoStream := true } none
    rfl (Or.inr (Or.inl rfl)) rfl rfl rfl rfl

end AutoEncoder
